import Mathlib

/-!
Shallow embedding of `src/db2fs.py` (olilau/odoo-scripts): a script that
moves Odoo attachment payloads from inline database storage into a
filestore.  Remote calls (`self.execute` over XML-RPC) are modelled by
explicit oracles describing what each call returns or whether it raises an
`xmlrpclib.Fault`; the SQL store of the manual conversion path is modelled
as a list of rows; machine behaviour (logging text, transport) is outside
the embedding.  Each definition is annotated with the source lines it
embeds.
-/

namespace Db2fs

/-- Exit code constants, `src/db2fs.py` lines 17-24. -/
def ERROR_ODOO_VERSION_NOT_FOUND : Nat := 2

/-- Exit code, line 18. -/
def ERROR_NO_FILESTORE_PATH : Nat := 3

/-- Exit code, line 19. -/
def ERROR_FILESTORE_PATH_DOES_NOT_EXIST : Nat := 4

/-- Exit code, line 20 (reserved, unused by the code). -/
def ERROR_DOCUMENT_STORAGE_ALREADY_EXIST : Nat := 5

/-- Exit code, line 21. -/
def ERROR_DOCUMENT_NOT_INSTALLED : Nat := 6

/-- Exit code, line 22 (reserved, unused by the code). -/
def ERROR_ATTACHMENTS_ALREADY_IN_A_FILESTORE : Nat := 7

/-- Exit code, line 23. -/
def ERROR_USER_NOT_ADMIN : Nat := 8

/-- Exit code, line 24 (the script spells the constant `ERROR_NO_DNS`). -/
def ERROR_NO_DNS : Nat := 9

/-! Version detection, `DocumentMover.get_odoo_version`, lines 480-498. -/

/-- Python's `str.split(sep)` for a one-character separator, over the
character list (structural recursion so that concrete instances evaluate in
the kernel); `"".split('.') == ['']` is the `[[]]` base case. -/
def splitOnChar (c : Char) : List Char → List (List Char)
  | [] => [[]]
  | x :: xs =>
    let r := splitOnChar c xs
    if x = c then [] :: r
    else
      match r with
      | [] => [[x]]
      | h :: t => (x :: h) :: t

/-- Python's `'.'.join(...)` over character lists. -/
def joinDots : List (List Char) → List Char
  | [] => []
  | [x] => x
  | x :: y :: t => x ++ '.' :: joinDots (y :: t)

/-- Line 489: `get_major_minor = lambda ver: '.'.join(ver.split('.', 2)[0:2])`.
Python's `split('.', 2)[0:2]` is the first two components of the full split. -/
def get_major_minor (ver : String) : String :=
  String.mk (joinDots ((splitOnChar '.' ver.toList).take 2))

/-- Lines 490-492: `Counter(...)` followed by `most_common()[0][0]` returns an
element of maximal multiplicity.  CPython's tie order depends on dict order;
the embedding fixes the deterministic choice `List.argmax`, which also picks
an element whose count no other element exceeds. -/
def most_common_label (reduced : List String) : Option String :=
  reduced.argmax fun s => reduced.count s

/-- Lines 480-498: reduce each installed module's `latest_version` to
major.minor, take the most frequent label; `sys.exit(2)` when there is none
(`if not odoo_version` also catches a falsy empty-string label). -/
def get_odoo_version (versions : List String) : Except Nat String :=
  let reduced := versions.map get_major_minor
  match most_common_label reduced with
  | none => Except.error ERROR_ODOO_VERSION_NOT_FOUND
  | some v =>
      if v = "" then Except.error ERROR_ODOO_VERSION_NOT_FOUND else Except.ok v

/-! Strategy selection, `DocumentMover.run`, lines 434-450.  The comparisons
go through `distutils` `LooseVersion`, which parses a dotted numeric version
string into a list of ints and compares the lists like Python lists. -/

/-- Python list comparison on lists of naturals (lexicographic, shorter list
first on a tie of the common prefix). -/
def listLt : List Nat → List Nat → Bool
  | _, [] => false
  | [], _ :: _ => true
  | a :: as, b :: bs =>
      if a < b then true else if b < a then false else listLt as bs

/-- One dotted component as LooseVersion reads it: a run of digits becomes an
int; the embedding covers the dotted numeric version strings this script
compares (a non-numeric component is mapped to 0). -/
def looseComponent (cs : List Char) : Nat :=
  if cs ≠ [] && cs.all (fun c => c.isDigit) then
    cs.foldl (fun a c => a * 10 + (c.toNat - '0'.toNat)) 0
  else 0

/-- LooseVersion parsing restricted to dotted numeric components, the shape
`get_odoo_version` produces and lines 443-445 compare against. -/
def looseParse (s : String) : List Nat :=
  (splitOnChar '.' s.toList).map looseComponent

/-- `version(a) < version(b)` on dotted numeric strings. -/
def looseLt (a b : String) : Bool :=
  listLt (looseParse a) (looseParse b)

/-- `version(a) >= version(b)`: the negation of `<` in the total order. -/
def looseGe (a b : String) : Bool :=
  !(looseLt a b)

/-- What `run` (lines 434-450) does once the version is known: pick a
migration routine, or raise the generic `Exception` of lines 448-450.
`exitWithCode` is the outcome of the `sys.exit(...)` calls elsewhere in the
script; `run` itself never produces it. -/
inductive RunOutcome where
  | moveUsingDocumentStorage
  | moveUsingConfigParameter
  | exitWithCode (c : Nat)
  | raiseException (msg : String)
deriving DecidableEq, Repr

/-- Line 448-449 message text, with `'{}'` filled by the version string. -/
def unsupportedMsg (v : String) : String :=
  "Moving attachments in Odoo version '" ++ v ++ "' is not yet implemented"

/-- Lines 443-450: the dispatch on the detected version string. -/
def runDispatch (v : String) : RunOutcome :=
  if looseGe v "6.0" && looseLt v "7.0" then RunOutcome.moveUsingDocumentStorage
  else if looseGe v "7.0" then RunOutcome.moveUsingConfigParameter
  else RunOutcome.raiseException (unsupportedMsg v)

/-! Locate-or-create of the filestore `document.storage` record,
`move_using_document_storage` lines 183-198. -/

/-- A `document.storage` record: id, name, type discriminator, path. -/
structure StorageRec where
  id : Nat
  name : String
  stype : String
  path : String
deriving DecidableEq, Repr

/-- Lines 183-187: `search` on `document.storage` by type and path, returning
the matching ids in table order. -/
def storageSearch (tbl : List StorageRec) (ty p : String) : List Nat :=
  (tbl.filter fun r => r.stype == ty && r.path == p).map fun r => r.id

/-- Lines 188-198: reuse the first matching filestore storage, else `create`
one with name `File Storage`; the remote assigns the fresh id `freshId`.
Returns the table after the step and the id used. -/
def locateOrCreateFilestoreStorage (tbl : List StorageRec) (p : String)
    (freshId : Nat) : List StorageRec × Nat :=
  match storageSearch tbl "filestore" p with
  | [] => (tbl ++ [⟨freshId, "File Storage", "filestore", p⟩], freshId)
  | i :: _ => (tbl, i)

/-! Collision renaming, `move_using_document_storage` lines 211-218 and
253-259. -/

/-- The disambiguation marker `'attachment %d' % id`. -/
def renameTag (id : Nat) : String :=
  "attachment " ++ toString id

/-- Lines 211-218: `needs_rename = len(unique_names) != len(all_attachment_ids)`,
over the (id, name) rows of all attachments. -/
def needsRename (atts : List (Nat × String)) : Bool :=
  ((atts.map Prod.snd).dedup).length != atts.length

/-- Lines 253-259: the name written back for one attachment: prefixed with
`attachment %d - ` when the policy is on and the current name does not
already start with the marker. -/
def newName (needs_rename : Bool) (id : Nat) (name : String) : String :=
  if needs_rename && !(name.startsWith (renameTag id)) then
    renameTag id ++ " - " ++ name
  else name

/-! The per-item loop of `move_using_document_storage`, lines 221-264.  The
body issues five remote calls in sequence (read `parent_id`, write the
directory to db storage, read `datas`, write the directory to filestore
storage, write the attachment back); any of them can raise
`xmlrpclib.Fault`, and the loop has no `try`/`except`.  The oracle below
records, per attachment id, which call (if any) raises, and the boolean
result `res` of the final write (line 257-260 turns a falsy `res` into
status `'fail'`). -/

/-- Remote-call outcomes for one legacy-loop iteration. -/
structure LegacyItemEnv where
  readParentFault : Bool
  dirWriteDbFault : Bool
  readDataFault : Bool
  dirWriteFsFault : Bool
  attWriteFault : Bool
  attWriteRes : Bool
deriving DecidableEq, Repr

/-- Whether some call of the iteration raises a fault. -/
def LegacyItemEnv.hasFault (e : LegacyItemEnv) : Bool :=
  e.readParentFault || e.dirWriteDbFault || e.readDataFault ||
    e.dirWriteFsFault || e.attWriteFault

/-- Lines 225-260, one iteration: the first raising call propagates the
fault; otherwise the iteration ends with the write result `res`. -/
def legacyRoundTrip (e : LegacyItemEnv) : Except String Bool :=
  if e.readParentFault then Except.error "Fault"
  else if e.dirWriteDbFault then Except.error "Fault"
  else if e.readDataFault then Except.error "Fault"
  else if e.dirWriteFsFault then Except.error "Fault"
  else if e.attWriteFault then Except.error "Fault"
  else Except.ok e.attWriteRes

/-- Lines 221-264, the loop: the per-item status lines emitted (id with
`'ok'`/`'fail'` from line 260), and whether an uncaught fault aborted
`move_using_document_storage` (second component `true`).  An abort discards
the loop and any status of items not yet reached. -/
def legacyStatuses (env : Nat → LegacyItemEnv) :
    List Nat → List (Nat × String) × Bool
  | [] => ([], false)
  | id :: rest =>
    match legacyRoundTrip (env id) with
    | Except.error _ => ([], true)
    | Except.ok res =>
      let (tail, aborted) := legacyStatuses env rest
      ((id, if res then "ok" else "fail") :: tail, aborted)

/-! The per-item loop of `move_using_config_parameter`, lines 139-172.  The
loop iterates over `list(attachment_ids)` (a copy) and, in the
`xmlrpclib.Fault` handler, removes the faulted id from `attachment_ids`,
the batch the final line-170 cleanup write (`db_datas = False`) is issued
on.  The handler then logs `msg.format(status)`; `msg` is only bound by a
previous successful read, so a fault during the very first read raises an
uncaught `NameError` there (modelled by the `msgBound` flag): the function
aborts and the final cleanup write is never issued. -/

/-- Remote-call outcomes for one modern-loop iteration: whether the per-item
read (lines 147-149) or write (lines 154-156) raises `xmlrpclib.Fault`. -/
structure ModernItemEnv where
  readFault : Bool
  writeFault : Bool
deriving DecidableEq, Repr

/-- Lines 144-167: returns the batch left for the final cleanup write and
whether the loop aborted with the uncaught `NameError` of the handler. -/
def modernLoop (env : Nat → ModernItemEnv) :
    List Nat → List Nat → Bool → List Nat × Bool
  | [], batch, _ => (batch, false)
  | i :: rest, batch, msgBound =>
    if (env i).readFault then
      if msgBound then modernLoop env rest (batch.erase i) true
      else (batch.erase i, true)
    else if (env i).writeFault then modernLoop env rest (batch.erase i) true
    else modernLoop env rest batch true

/-- Lines 139-172 as a whole: the loop, then (when it completed) the batch
cleanup write clearing `db_datas` of every id still in `attachment_ids`.
`dbDatas` is the inline payload column before the call; the result is the
column after it, plus the abort flag. -/
def move_using_config_parameter (env : Nat → ModernItemEnv)
    (dbDatas : Nat → Option String) (ids : List Nat) :
    (Nat → Option String) × Bool :=
  match modernLoop env ids ids false with
  | (_, true) => (dbDatas, true)
  | (batchFinal, false) =>
      ((fun i => if i ∈ batchFinal then none else dbDatas i), false)

/-! Preliminary checks of the legacy path, `pre_move_checks` lines 268-281,
with `check_document_module_is_installed` (283-297),
`install_document_module_if_needed` (315-347) and `check_filestore_path`
(299-312) in the order `pre_move_checks` calls them. -/

/-- The command-line options `pre_move_checks` consults. -/
structure MoveArgs where
  manual_attachment_conversion : Bool
  dsn : Option String
  install_document_module : Bool
  filestore_path : Option String
deriving DecidableEq, Repr

/-- The remote mutations `install_document_module_if_needed` can perform:
`button_install` plus the `base.module.upgrade` call (lines 335-344), and
the chained `manual_attachment_conversion()` (lines 346-347). -/
inductive PreMoveEvent where
  | installDocumentModule
  | upgradeModules
  | manualConversionRun
deriving DecidableEq, Repr

/-- Lines 268-281: the checks in source order.  Returns the mutating events
performed before the function returned, and `some exitCode` when a check
called `sys.exit`.  `documentInstalled` is the remote state of the
`document` module, `pathExists` is `os.path.isdir` on the connecting
host. -/
def pre_move_checks (a : MoveArgs) (documentInstalled : Bool)
    (pathExists : String → Bool) : List PreMoveEvent × Option Nat :=
  if a.manual_attachment_conversion && a.dsn.isNone then
    ([], some ERROR_NO_DNS)
  else if !documentInstalled && !a.install_document_module then
    ([], some ERROR_DOCUMENT_NOT_INSTALLED)
  else
    let installEvents :=
      if a.install_document_module then
        (if documentInstalled then []
         else [PreMoveEvent.installDocumentModule, PreMoveEvent.upgradeModules])
          ++ (if a.manual_attachment_conversion then
                [PreMoveEvent.manualConversionRun]
              else [])
      else []
    match a.filestore_path with
    | none => (installEvents, some ERROR_NO_FILESTORE_PATH)
    | some p =>
        if pathExists p then (installEvents, none)
        else (installEvents, some ERROR_FILESTORE_PATH_DOES_NOT_EXIST)

/-! Manual bulk conversion, `manual_attachment_conversion` lines 349-432.
The `ir_attachment` table is a list of rows; `id` is the primary key, so
the SQL updates (all of which filter rows independently) act row-wise.
The payload type is a parameter `α`; `decode(encode(db_datas, 'escape'),
'base64')` is the transcoding function `tc`, `length` (for the `file_size`
backfill, which uses Python `len` on the fetched payload) is `plen`. -/

/-- One `ir_attachment` row as the function touches it. -/
structure AttRow (α : Type) where
  id : Nat
  parent_id : Option Nat
  db_datas : Option α
  file_size : Nat
deriving DecidableEq, Repr

/-- The mutating statements the function can issue, in order of appearance:
the batched UPDATE (lines 383-391), the catch-all UPDATE (393-399), the
ALTER TABLE (401-402) and the per-row `file_size` UPDATE (428-432). -/
inductive SqlMutation where
  | updateBatch (root lo hi : Nat)
  | updateCatchAll (root : Nat)
  | alterNotNull
  | updateFileSize (id size : Nat)
deriving DecidableEq, Repr

/-- Lines 354-357: `count(*) where parent_id is not null`. -/
def countParentNotNull {α : Type} (db : List (AttRow α)) : Nat :=
  (db.filter fun r => r.parent_id.isSome).length

/-- Lines 373-377: `count(*) where parent_id is null and db_datas is not
null` - the total to convert. -/
def countQualifying {α : Type} (db : List (AttRow α)) : Nat :=
  (db.filter fun r => r.parent_id.isNone && r.db_datas.isSome).length

/-- Python `range(start, stop, step)` for positive step, with the stop value
as structural fuel (the index grows by at least one per iteration, so `stop`
iterations always suffice). -/
def pyRangeAux (step : Nat) : Nat → Nat → Nat → List Nat
  | 0, _, _ => []
  | fuel + 1, start, stop =>
      if start < stop then start :: pyRangeAux step fuel (start + step) stop
      else []

/-- Python `range(start, stop, step)`, positive step. -/
def pyRange (start stop step : Nat) : List Nat :=
  if step = 0 then [] else pyRangeAux step stop start stop

/-- Line 381: `batch = 1000`. -/
def batchSize : Nat := 1000

/-- Lines 382-391: the `[i, i + batch - 1]` bounds of each batched UPDATE,
for `i in range(1, total + 1, batch)`. -/
def batchRanges (total : Nat) : List (Nat × Nat) :=
  (pyRange 1 (total + 1) batchSize).map fun i => (i, i + batchSize - 1)

/-- Lines 383-391, effect of one batched UPDATE on one row: rows with null
`parent_id` and id between the bounds get the root parent and their
`db_datas` transcoded (SQL `decode(encode(NULL, ...), ...)` keeps NULL,
hence `Option.map`). -/
def batchRow {α : Type} (tc : α → α) (root : Nat) (pr : Nat × Nat)
    (r : AttRow α) : AttRow α :=
  if r.parent_id.isNone && decide (pr.1 ≤ r.id) && decide (r.id ≤ pr.2) then
    { r with parent_id := some root, db_datas := r.db_datas.map tc }
  else r

/-- Lines 382-391: the batched UPDATEs in sequence. -/
def applyBatches {α : Type} (tc : α → α) (root : Nat)
    (ranges : List (Nat × Nat)) (db : List (AttRow α)) : List (AttRow α) :=
  ranges.foldl (fun d pr => d.map (batchRow tc root pr)) db

/-- Lines 393-399, the catch-all UPDATE: remaining null parents get the
root parent; `db_datas` untouched. -/
def applyCatchAll {α : Type} (root : Nat) (db : List (AttRow α)) :
    List (AttRow α) :=
  db.map fun r =>
    if r.parent_id.isNone then { r with parent_id := some root } else r

/-- Lines 404-432, the `file_size` backfill: rows with `file_size = 0` and a
payload get `file_size := len(payload)`. -/
def applyFileSizeBackfill {α : Type} (plen : α → Nat) (db : List (AttRow α)) :
    List (AttRow α) :=
  db.map fun r =>
    if r.file_size == 0 && r.db_datas.isSome then
      { r with file_size := (r.db_datas.map plen).getD 0 }
    else r

/-- The `file_size` UPDATE statements of lines 419-432, one per fetched
row. -/
def backfillMutations {α : Type} (plen : α → Nat) (db : List (AttRow α)) :
    List SqlMutation :=
  (db.filter fun r => r.file_size == 0 && r.db_datas.isSome).map fun r =>
    SqlMutation.updateFileSize r.id ((r.db_datas.map plen).getD 0)

/-- Lines 349-432 as a whole: the idempotency guard (354-362) returns with
no statement issued when any `parent_id` is already set; otherwise the
batched UPDATEs over `batchRanges total`, the catch-all UPDATE, the ALTER
TABLE, and the backfill run in order.  `rootId` is the `dir_root` id looked
up in `ir_model_data` (lines 364-371).  Returns the table after the run and
the mutating statements issued. -/
def manual_attachment_conversion {α : Type} (tc : α → α) (plen : α → Nat)
    (rootId : Nat) (db : List (AttRow α)) :
    List (AttRow α) × List SqlMutation :=
  if 0 < countParentNotNull db then (db, [])
  else
    let total := countQualifying db
    let ranges := batchRanges total
    let db1 := applyBatches tc rootId ranges db
    let db2 := applyCatchAll rootId db1
    let db3 := applyFileSizeBackfill plen db2
    (db3,
      (ranges.map fun pr => SqlMutation.updateBatch rootId pr.1 pr.2)
        ++ [SqlMutation.updateCatchAll rootId, SqlMutation.alterNotNull]
        ++ backfillMutations plen db2)

/-! Helper lemmas. -/

/-- Python list comparison of `[M, m]` against `[B, 0]` reduces to comparing
the major components. -/
theorem listLt_pair (M m B : Nat) : listLt [M, m] [B, 0] = decide (M < B) := by
  rcases Nat.lt_trichotomy M B with h | h | h
  · simp [listLt, h]
  · subst h
    cases m <;> simp [listLt]
  · simp [listLt, h, Nat.lt_asymm h]

/-- A faulting call in the legacy round-trip makes the iteration raise. -/
theorem legacyRoundTrip_of_hasFault (e : LegacyItemEnv)
    (h : e.hasFault = true) : legacyRoundTrip e = Except.error "Fault" := by
  rcases e with ⟨a, b, c, d, f, g⟩
  cases a <;> cases b <;> cases c <;> cases d <;> cases f <;>
    simp_all [LegacyItemEnv.hasFault, legacyRoundTrip]

/-- With no faulting call the iteration returns the write result. -/
theorem legacyRoundTrip_of_no_fault (e : LegacyItemEnv)
    (h : e.hasFault = false) : legacyRoundTrip e = Except.ok e.attWriteRes := by
  rcases e with ⟨a, b, c, d, f, g⟩
  cases a <;> cases b <;> cases c <;> cases d <;> cases f <;>
    simp_all [LegacyItemEnv.hasFault, legacyRoundTrip]

/-- When no selected item faults, the legacy loop visits every item in order
and records its `'ok'`/`'fail'` status without aborting. -/
theorem legacyStatuses_of_no_fault (env : Nat → LegacyItemEnv) :
    ∀ ids : List Nat, (∀ i ∈ ids, (env i).hasFault = false) →
      legacyStatuses env ids
        = (ids.map fun i => (i, if (env i).attWriteRes then "ok" else "fail"),
           false) := by
  intro ids
  induction ids with
  | nil => intro _; simp [legacyStatuses]
  | cons j rest ih =>
    intro h
    have hj := legacyRoundTrip_of_no_fault (env j) (h j (by simp))
    have hrest := ih fun i hi => h i (by simp [hi])
    simp [legacyStatuses, hj, hrest]

/-! C1.  The claim: in the legacy migration loop, a failure in one
attachment's read/write round-trip does not abort the run, is logged, and
processing continues with the remaining attachments.  The loop (lines
221-264) has no `try`/`except`: a raised `xmlrpclib.Fault` propagates and
aborts `move_using_document_storage`; only a write that completes with a
falsy result is logged as status `'fail'` and lets the loop continue. -/

/-- C1 (counterexample): with two selected attachments where the first one's
`datas` read raises a Fault, the run aborts - no status is recorded and the
second attachment is never processed, refuting "a failure ... does not abort
the run ... processing continues with the remaining attachments". -/
theorem legacy_loop_fault_counterexample :
    legacyStatuses
      (fun n =>
        if n = 1 then ⟨false, false, true, false, false, true⟩
        else ⟨false, false, false, false, false, true⟩)
      [1, 2]
    = ([], true) := by decide

/-- C1 (amended): in the legacy loop, when no remote call of any selected
item raises a fault, every item is processed in order and a falsy write
result is recorded as status `'fail'` without aborting; but any raised
fault aborts the run immediately (there is no per-item handler). -/
theorem legacy_loop_fault_policy (env : Nat → LegacyItemEnv)
    (ids rest : List Nat) (id : Nat) :
    ((∀ i ∈ ids, (env i).hasFault = false) →
      legacyStatuses env ids
        = (ids.map fun i => (i, if (env i).attWriteRes then "ok" else "fail"),
           false))
    ∧ ((env id).hasFault = true →
        legacyStatuses env (id :: rest) = ([], true)) := by
  refine ⟨legacyStatuses_of_no_fault env ids, fun h => ?_⟩
  simp [legacyStatuses, legacyRoundTrip_of_hasFault (env id) h]

/-! C3.  The claim: for a counted total of 2500 qualifying rows the batched
UPDATEs cover exactly [1,1000], [1001,2000], [2001,2500].  The code issues
`id BETWEEN i AND i+999` for `i in range(1, 2501, 1000)`, so the last range
is [2001,3000], not [2001,2500]. -/

/-- C3 (counterexample): for total 2500 the issued ranges are not
[1,1000], [1001,2000], [2001,2500] - the last bound is 3000. -/
theorem batch_ranges_2500_counterexample :
    batchRanges 2500 ≠ [(1, 1000), (1001, 2000), (2001, 2500)]
    ∧ batchRanges 2500 = [(1, 1000), (1001, 2000), (2001, 3000)] := by decide

/-- C3 (amended): for a counted total of 2500 qualifying rows the manual
converter issues batches with identity ranges exactly [1,1000], [1001,2000],
[2001,3000]: consecutive with no gap and no overlap (each range starts one
past the previous end), starting at 1; the last range runs to the batch
boundary 3000 beyond the counted total. -/
theorem batch_ranges_for_2500 :
    batchRanges 2500 = [(1, 1000), (1001, 2000), (2001, 3000)]
    ∧ ((batchRanges 2500).zip (batchRanges 2500).tail).all
        (fun ab => ab.2.1 == ab.1.2 + 1) = true
    ∧ (batchRanges 2500).head? = some (1, 1000) := by decide

/-! C4.  The claim: all legacy-path preconditions are checked before any
mutation, so a NoFilestorePath / FilestorePathNotFound termination happens
with no module installation or bulk conversion performed.  In the code
`pre_move_checks` calls `install_document_module_if_needed` (which installs
the module, upgrades, and optionally runs the manual conversion) before
`check_filestore_path`. -/

/-- C4 (counterexample): with `--install-document-module` set, the module
not installed, and no filestore path supplied, the run installs and
upgrades the module and only then terminates with `ERROR_NO_FILESTORE_PATH`
- mutations precede the precondition exit. -/
theorem pre_move_checks_counterexample :
    pre_move_checks ⟨false, none, true, none⟩ false (fun _ => false)
      = ([PreMoveEvent.installDocumentModule, PreMoveEvent.upgradeModules],
         some ERROR_NO_FILESTORE_PATH)
    ∧ (pre_move_checks ⟨false, none, true, none⟩ false (fun _ => false)).1 ≠ [] := by
  decide

/-- C4 (amended): the DSN and document-module checks terminate before any
mutation, and when `--install-document-module` is not supplied no mutation
precedes any termination; but the module installation (and chained manual
conversion) run before the filestore-path check, whose exits correctly
report a missing or non-existing path. -/
theorem pre_move_checks_mutation_policy (a : MoveArgs)
    (documentInstalled : Bool) (pathExists : String → Bool) :
    (a.install_document_module = false →
      (pre_move_checks a documentInstalled pathExists).1 = [])
    ∧ ((pre_move_checks a documentInstalled pathExists).2 = some ERROR_NO_DNS →
        (pre_move_checks a documentInstalled pathExists).1 = [])
    ∧ ((pre_move_checks a documentInstalled pathExists).2
          = some ERROR_DOCUMENT_NOT_INSTALLED →
        (pre_move_checks a documentInstalled pathExists).1 = [])
    ∧ ((pre_move_checks a documentInstalled pathExists).2
          = some ERROR_NO_FILESTORE_PATH → a.filestore_path = none)
    ∧ ((pre_move_checks a documentInstalled pathExists).2
          = some ERROR_FILESTORE_PATH_DOES_NOT_EXIST →
        ∃ p, a.filestore_path = some p ∧ pathExists p = false) := by
  unfold pre_move_checks
  by_cases hA : (a.manual_attachment_conversion && a.dsn.isNone) = true <;>
    by_cases hB : (!documentInstalled && !a.install_document_module) = true <;>
    cases hP : a.filestore_path <;>
    by_cases hI : a.install_document_module = true <;>
    simp_all [ERROR_NO_DNS, ERROR_DOCUMENT_NOT_INSTALLED,
      ERROR_NO_FILESTORE_PATH, ERROR_FILESTORE_PATH_DOES_NOT_EXIST] <;>
    split_ifs <;> simp_all

/-! C6.  The claim: when at least two attachments share a display name,
every migrated colliding attachment is renamed with its own identity as a
prefix, and an attachment whose name is unique is never renamed.  The
policy flag `needs_rename` is computed globally (lines 211-218): once any
collision exists, every processed attachment not already carrying the
marker is renamed, including uniquely-named ones. -/

/-- C6 (counterexample): in a dataset where "invoice.pdf" collides and
"report.pdf" is unique, the uniquely-named attachment 12 is renamed too,
refuting "an attachment whose name is unique is never renamed". -/
theorem rename_unique_name_counterexample :
    needsRename [(10, "invoice.pdf"), (11, "invoice.pdf"), (12, "report.pdf")]
      = true
    ∧ ([(10, "invoice.pdf"), (11, "invoice.pdf"), (12, "report.pdf")].map
        Prod.snd).count "report.pdf" = 1
    ∧ newName
        (needsRename
          [(10, "invoice.pdf"), (11, "invoice.pdf"), (12, "report.pdf")])
        12 "report.pdf"
      ≠ "report.pdf" := by decide

/-- C6 (amended): when no two attachments share a name the policy is off and
no attachment is renamed; when any two do, every processed attachment whose
name does not already carry the marker is renamed to embed its own identity
- in particular two attachments both named "invoice.pdf" with identities 10
and 11 end with distinct, identity-prefixed names. -/
theorem rename_policy (id : Nat) (name : String) :
    newName false id name = name
    ∧ newName true 10 "invoice.pdf" = "attachment 10 - invoice.pdf"
    ∧ newName true 11 "invoice.pdf" = "attachment 11 - invoice.pdf"
    ∧ newName true 10 "invoice.pdf" ≠ newName true 11 "invoice.pdf"
    ∧ needsRename [(10, "invoice.pdf"), (11, "invoice.pdf")] = true := by
  refine ⟨by simp [newName], by decide, by decide, by decide, by decide⟩

/-! C7.  The claim: strategy selection maps 6.0 <= v < 7.0 to the legacy
migration, v >= 7.0 to the config-parameter migration, v < 6.0 to an
UnsupportedVersion failure carrying its own distinct process exit code.
The mapping holds, but the v < 6.0 branch raises a plain `Exception`
(lines 447-450); none of the script's exit-code constants is used for it. -/

/-- C7 (counterexample): at version "5.0" the run raises the generic
not-implemented exception; the outcome is none of the script's dedicated
exit codes, refuting "maps to a distinct process exit code". -/
theorem run_dispatch_counterexample :
    runDispatch "5.0" = RunOutcome.raiseException (unsupportedMsg "5.0")
    ∧ runDispatch "5.0" ≠ RunOutcome.exitWithCode ERROR_ODOO_VERSION_NOT_FOUND
    ∧ runDispatch "5.0" ≠ RunOutcome.exitWithCode ERROR_NO_FILESTORE_PATH
    ∧ runDispatch "5.0" ≠ RunOutcome.exitWithCode ERROR_FILESTORE_PATH_DOES_NOT_EXIST
    ∧ runDispatch "5.0" ≠ RunOutcome.exitWithCode ERROR_DOCUMENT_STORAGE_ALREADY_EXIST
    ∧ runDispatch "5.0" ≠ RunOutcome.exitWithCode ERROR_DOCUMENT_NOT_INSTALLED
    ∧ runDispatch "5.0" ≠ RunOutcome.exitWithCode ERROR_ATTACHMENTS_ALREADY_IN_A_FILESTORE
    ∧ runDispatch "5.0" ≠ RunOutcome.exitWithCode ERROR_USER_NOT_ADMIN
    ∧ runDispatch "5.0" ≠ RunOutcome.exitWithCode ERROR_NO_DNS := by decide

/-- C7 (amended): for a detected version with numeric components `[M, m]`,
major 6 runs the legacy document-storage migration, major >= 7 runs the
config-parameter migration, and major < 6 raises the generic
not-yet-implemented exception (no dedicated exit code). -/
theorem run_dispatch_mapping (v : String) (M m : Nat)
    (h : looseParse v = [M, m]) :
    runDispatch v
      = (if M = 6 then RunOutcome.moveUsingDocumentStorage
         else if 7 ≤ M then RunOutcome.moveUsingConfigParameter
         else RunOutcome.raiseException (unsupportedMsg v)) := by
  have h6 : looseParse "6.0" = [6, 0] := by decide
  have h7 : looseParse "7.0" = [7, 0] := by decide
  unfold runDispatch looseGe looseLt
  rw [h, h6, h7, listLt_pair, listLt_pair]
  by_cases hM6 : M < 6 <;> by_cases hM7 : M < 7
  · have h1 : M ≠ 6 := by omega
    have h2 : ¬ 7 ≤ M := by omega
    simp [hM6, hM7, h1, h2]
  · omega
  · have h1 : M = 6 := by omega
    simp [hM6, hM7, h1]
  · have h1 : M ≠ 6 := by omega
    have h2 : 7 ≤ M := by omega
    simp [hM6, hM7, h1, h2]

/-- C7 (witness): the amended mapping at the concrete version "5.0". -/
theorem run_dispatch_mapping_witness :
    runDispatch "5.0" = RunOutcome.raiseException (unsupportedMsg "5.0") := by
  have h := run_dispatch_mapping "5.0" 5 0 (by decide)
  simpa using h

/-! C5.  Version detection: reduce each version string to major.minor and
return the most frequent label; exit code 2 when there is none. -/

/-- C5: any label `get_odoo_version` returns has maximal multiplicity among
the reduced major.minor labels; on the concrete set {"8.0.1.3", "8.0.2.1",
"7.0.5.0"} it returns "8.0", and with no installed modules it exits with
the VersionNotFound code 2. -/
theorem version_detection_majority (versions : List String) (v : String)
    (h : get_odoo_version versions = Except.ok v) :
    (∀ w, (versions.map get_major_minor).count w
        ≤ (versions.map get_major_minor).count v)
    ∧ get_odoo_version ["8.0.1.3", "8.0.2.1", "7.0.5.0"] = Except.ok "8.0"
    ∧ get_odoo_version [] = Except.error ERROR_ODOO_VERSION_NOT_FOUND := by
  refine ⟨?_, rfl, rfl⟩
  intro w
  simp only [get_odoo_version] at h
  cases hm : most_common_label (versions.map get_major_minor) with
  | none => rw [hm] at h; exact absurd h (by simp)
  | some u =>
    rw [hm] at h
    by_cases hu : u = ""
    · exact absurd h (by simp [hu])
    · have hv : u = v := by simpa [hu] using h
      subst hv
      have hmem : u ∈ List.argmax
          (fun s => (versions.map get_major_minor).count s)
          (versions.map get_major_minor) := by
        rw [Option.mem_def]
        simpa [most_common_label] using hm
      by_cases hw : w ∈ versions.map get_major_minor
      · exact List.le_of_mem_argmax hw hmem
      · simp [List.count_eq_zero.mpr hw]

/-- C5 (witness): instantiated at the concrete module set, where the
returned label "8.0" has multiplicity at least that of "7.0". -/
theorem version_detection_majority_witness :
    (["8.0.1.3", "8.0.2.1", "7.0.5.0"].map get_major_minor).count "7.0"
      ≤ (["8.0.1.3", "8.0.2.1", "7.0.5.0"].map get_major_minor).count "8.0" :=
  (version_detection_majority ["8.0.1.3", "8.0.2.1", "7.0.5.0"] "8.0" rfl).1
    "7.0"

/-! C8.  Locate-or-create of the filestore Storage record is idempotent
across re-runs. -/

/-- C8: if a `document.storage` record of type filestore with the supplied
path exists it is reused and the table is unchanged; only when none exists
is one created; the number of matching records after the step is
`max 1 (before)`; and running the step twice leaves the table of the first
run unchanged - no duplicate filestore record for the same path is ever
created. -/
theorem storage_locate_or_create_idempotent (tbl : List StorageRec)
    (p : String) (id1 id2 : Nat) :
    (storageSearch tbl "filestore" p ≠ [] →
      (locateOrCreateFilestoreStorage tbl p id1).1 = tbl)
    ∧ (storageSearch tbl "filestore" p = [] →
        (locateOrCreateFilestoreStorage tbl p id1).1
          = tbl ++ [⟨id1, "File Storage", "filestore", p⟩])
    ∧ (storageSearch (locateOrCreateFilestoreStorage tbl p id1).1
          "filestore" p).length
        = max 1 (storageSearch tbl "filestore" p).length
    ∧ (locateOrCreateFilestoreStorage
          (locateOrCreateFilestoreStorage tbl p id1).1 p id2).1
        = (locateOrCreateFilestoreStorage tbl p id1).1 := by
  have happ : ∀ t1 t2 : List StorageRec,
      storageSearch (t1 ++ t2) "filestore" p
        = storageSearch t1 "filestore" p ++ storageSearch t2 "filestore" p := by
    intro t1 t2
    simp [storageSearch, List.filter_append]
  have hone : storageSearch [⟨id1, "File Storage", "filestore", p⟩]
      "filestore" p = [id1] := by
    simp [storageSearch]
  cases hs : storageSearch tbl "filestore" p with
  | nil =>
    have hnew : storageSearch (tbl ++ [⟨id1, "File Storage", "filestore", p⟩])
        "filestore" p = [id1] := by
      rw [happ, hs, hone]
      simp
    refine ⟨fun hne => absurd rfl hne, fun _ => ?_, ?_, ?_⟩ <;>
      simp [locateOrCreateFilestoreStorage, hs, hnew]
  | cons i rest =>
    refine ⟨fun _ => ?_, fun hnil => absurd hnil (by simp), ?_, ?_⟩
    · simp [locateOrCreateFilestoreStorage, hs]
    · simp [locateOrCreateFilestoreStorage, hs]
    · simp [locateOrCreateFilestoreStorage, hs]

/-! C2.  The modern path removes a faulted attachment from the batch slated
for the final cleanup write, so its inline payload is never cleared. -/

/-- The batch the modern loop leaves behind only shrinks: it is a subset of
the batch it started from. -/
theorem modernLoop_subset (env : Nat → ModernItemEnv) :
    ∀ (ids batch : List Nat) (mb : Bool),
      (modernLoop env ids batch mb).1 ⊆ batch := by
  intro ids
  induction ids with
  | nil => intro batch mb; simp [modernLoop]
  | cons j rest ih =>
    intro batch mb
    simp only [modernLoop]
    split_ifs with h1 h2 h3
    · exact List.Subset.trans (ih (batch.erase j) true) (List.erase_subset ..)
    · exact List.erase_subset ..
    · exact List.Subset.trans (ih (batch.erase j) true) (List.erase_subset ..)
    · exact ih batch true

/-- An id whose read or write faults and that occurs at most once in the
pending batch is absent from the batch the loop hands to the final cleanup
write, whenever the loop completes. -/
theorem modernLoop_fault_not_mem (env : Nat → ModernItemEnv) (i : Nat)
    (hf : (env i).readFault = true ∨ (env i).writeFault = true) :
    ∀ (ids batch : List Nat) (mb : Bool), i ∈ ids → batch.count i ≤ 1 →
      (modernLoop env ids batch mb).2 = false →
      i ∉ (modernLoop env ids batch mb).1 := by
  intro ids
  induction ids with
  | nil => intro batch mb hmem; simp at hmem
  | cons j rest ih =>
    intro batch mb hmem hcount hdone
    by_cases hij : i = j
    · subst hij
      have herase : i ∉ batch.erase i := by
        have hcself := List.count_erase_self i batch
        have h0 : (batch.erase i).count i = 0 := by omega
        exact List.count_eq_zero.mp h0
      by_cases h1 : (env i).readFault = true
      · cases mb with
        | true =>
          have he : modernLoop env (i :: rest) batch true
              = modernLoop env rest (batch.erase i) true := by
            simp [modernLoop, h1]
          rw [he]
          exact fun hmem2 =>
            herase (modernLoop_subset env rest (batch.erase i) true hmem2)
        | false =>
          have he : modernLoop env (i :: rest) batch false
              = (batch.erase i, true) := by
            simp [modernLoop, h1]
          rw [he] at hdone
          simp at hdone
      · have h2 : (env i).writeFault = true := by
          rcases hf with h | h
          · exact absurd h h1
          · exact h
        have he : modernLoop env (i :: rest) batch mb
            = modernLoop env rest (batch.erase i) true := by
          simp [modernLoop, h1, h2]
        rw [he]
        exact fun hmem2 =>
          herase (modernLoop_subset env rest (batch.erase i) true hmem2)
    · have hmem' : i ∈ rest := by
        rcases List.mem_cons.mp hmem with h | h
        · exact absurd h hij
        · exact h
      have hcnt : (batch.erase j).count i = batch.count i :=
        List.count_erase_of_ne hij batch
      by_cases h1 : (env j).readFault = true
      · cases mb with
        | true =>
          have he : modernLoop env (j :: rest) batch true
              = modernLoop env rest (batch.erase j) true := by
            simp [modernLoop, h1]
          rw [he] at hdone ⊢
          exact ih (batch.erase j) true hmem' (by omega) hdone
        | false =>
          have he : modernLoop env (j :: rest) batch false
              = (batch.erase j, true) := by
            simp [modernLoop, h1]
          rw [he] at hdone
          simp at hdone
      · by_cases h2 : (env j).writeFault = true
        · have he : modernLoop env (j :: rest) batch mb
              = modernLoop env rest (batch.erase j) true := by
            simp [modernLoop, h1, h2]
          rw [he] at hdone ⊢
          exact ih (batch.erase j) true hmem' (by omega) hdone
        · have he : modernLoop env (j :: rest) batch mb
              = modernLoop env rest batch true := by
            simp [modernLoop, h1, h2]
          rw [he] at hdone ⊢
          exact ih batch true hmem' hcount hdone

/-- C2: in `move_using_config_parameter`, an attachment whose per-item read
or write raises a remote fault is removed from the batch slated for the
final cleanup write, so its inline payload `db_datas` is never cleared by
that final batch write. -/
theorem modern_fault_preserves_db_datas (env : Nat → ModernItemEnv)
    (dbDatas : Nat → Option String) (ids : List Nat) (i : Nat)
    (hnd : ids.Nodup) (hi : i ∈ ids)
    (hf : (env i).readFault = true ∨ (env i).writeFault = true) :
    (move_using_config_parameter env dbDatas ids).1 i = dbDatas i := by
  have hcount : ids.count i ≤ 1 := List.nodup_iff_count_le_one.mp hnd i
  rcases hML : modernLoop env ids ids false with ⟨batchFinal, ab⟩
  cases ab with
  | true => simp [move_using_config_parameter, hML]
  | false =>
    have hnot : i ∉ batchFinal := by
      have hdone : (modernLoop env ids ids false).2 = false := by rw [hML]
      have := modernLoop_fault_not_mem env i hf ids ids false hi hcount hdone
      rw [hML] at this
      exact this
    simp [move_using_config_parameter, hML, hnot]

/-- C2 (witness): with attachments [1, 2, 3] where item 2's write faults,
item 2's inline payload survives the run. -/
theorem modern_fault_preserves_db_datas_witness :
    (move_using_config_parameter
      (fun n => if n = 2 then ⟨false, true⟩ else ⟨false, false⟩)
      (fun _ => some "payload") [1, 2, 3]).1 2 = some "payload" :=
  modern_fault_preserves_db_datas _ _ [1, 2, 3] 2 (by decide) (by decide)
    (Or.inr (by decide))

/-! C9.  The manual conversion's idempotency guard. -/

/-- C9: when some attachment already has a non-null parent reference, the
manual bulk converter returns with the table unchanged and no mutating
statement issued - no UPDATE, no ALTER TABLE, no other change. -/
theorem manual_conversion_guard_noop {α : Type} (tc : α → α)
    (plen : α → Nat) (rootId : Nat) (db : List (AttRow α))
    (h : ∃ r ∈ db, r.parent_id.isSome = true) :
    manual_attachment_conversion tc plen rootId db = (db, []) := by
  obtain ⟨r, hr, hsome⟩ := h
  have hpos : 0 < countParentNotNull db :=
    List.length_pos_of_mem (List.mem_filter.mpr ⟨hr, hsome⟩)
  simp [manual_attachment_conversion, hpos]

/-- C9 (witness): a one-row table whose row already has a parent reference
is returned untouched, with no mutating statement. -/
theorem manual_conversion_guard_noop_witness :
    manual_attachment_conversion Nat.succ (fun n => n) 7
      [⟨1, some 5, none, 0⟩]
    = ([⟨1, some 5, none, 0⟩], []) :=
  manual_conversion_guard_noop Nat.succ (fun n => n) 7 _
    ⟨⟨1, some 5, none, 0⟩, by simp, rfl⟩

/-! C10.  The claim: transcoding is applied only inside batched updates
over identity range [1, total]; a qualifying row whose identity exceeds the
counted total gets a parent reference from the catch-all but is never
transcoded.  In the code the batches run to the 1000-boundary past `total`
(`id BETWEEN i AND i+999`), so a qualifying row with identity in
(total, batch end] is transcoded after all; only rows outside every issued
range are left untranscoded. -/

/-- The batched UPDATEs act row-wise: their sequential application is a
single map of the folded per-row function. -/
theorem applyBatches_eq_map {α : Type} (tc : α → α) (root : Nat) :
    ∀ (ranges : List (Nat × Nat)) (db : List (AttRow α)),
      applyBatches tc root ranges db
        = db.map fun r =>
            ranges.foldl (fun x pr => batchRow tc root pr x) r := by
  intro ranges
  induction ranges with
  | nil => intro db; simp [applyBatches]
  | cons pr rs ih =>
    intro db
    have h1 : applyBatches tc root (pr :: rs) db
        = applyBatches tc root rs (db.map (batchRow tc root pr)) := by
      simp [applyBatches]
    rw [h1, ih, List.map_map]
    simp [Function.comp, List.foldl_cons]

/-- A row whose id lies outside the bounds is untouched by that batched
UPDATE. -/
theorem batchRow_of_out {α : Type} (tc : α → α) (root : Nat)
    (pr : Nat × Nat) (r : AttRow α) (h : ¬(pr.1 ≤ r.id ∧ r.id ≤ pr.2)) :
    batchRow tc root pr r = r := by
  unfold batchRow
  rw [if_neg]
  intro hc
  simp only [Bool.and_eq_true, decide_eq_true_eq] at hc
  exact h ⟨hc.1.2, hc.2⟩

/-- A row whose id lies outside every issued range is untouched by the
whole batched phase. -/
theorem foldl_batchRow_of_out {α : Type} (tc : α → α) (root : Nat)
    (r : AttRow α) :
    ∀ ranges : List (Nat × Nat),
      (∀ pr ∈ ranges, ¬(pr.1 ≤ r.id ∧ r.id ≤ pr.2)) →
      ranges.foldl (fun x pr => batchRow tc root pr x) r = r := by
  intro ranges
  induction ranges with
  | nil => intro _; rfl
  | cons pr rs ih =>
    intro h
    rw [List.foldl_cons, batchRow_of_out tc root pr r (h pr (by simp))]
    exact ih fun q hq => h q (by simp [hq])

/-- C10 (counterexample): two qualifying rows with identities 1 and 500
give a counted total of 2, yet row 500 - whose identity exceeds the total -
lies inside the issued batch range [1, 1000] and has its payload transcoded
(here `Nat.succ`: payload 0 becomes 1), refuting "a qualifying row whose
identity exceeds that counted total ... is never transcoded". -/
theorem manual_conversion_transcode_counterexample :
    countQualifying [(⟨1, none, some 0, 0⟩ : AttRow Nat),
      ⟨500, none, some 0, 0⟩] = 2
    ∧ (2 : Nat) < 500
    ∧ (manual_attachment_conversion Nat.succ (fun _ => 5) 7
        [⟨1, none, some 0, 0⟩, ⟨500, none, some 0, 0⟩]).1
      = [⟨1, some 7, some 1, 5⟩, ⟨500, some 7, some 1, 5⟩]
    ∧ (some 1 : Option Nat) ≠ some 0 := by decide

/-- C10 (amended): when the guard passes, a qualifying row whose identity
falls outside every issued batch range receives the root parent reference
from the catch-all update while its payload is left untranscoded. -/
theorem manual_conversion_outside_ranges {α : Type} (tc : α → α)
    (plen : α → Nat) (rootId : Nat) (db : List (AttRow α)) (r : AttRow α)
    (hguard : countParentNotNull db = 0) (hr : r ∈ db)
    (hout : ∀ pr ∈ batchRanges (countQualifying db),
      ¬(pr.1 ≤ r.id ∧ r.id ≤ pr.2)) :
    ∃ f ∈ (manual_attachment_conversion tc plen rootId db).1,
      f.id = r.id ∧ f.parent_id = some rootId ∧ f.db_datas = r.db_datas := by
  have hrnone : r.parent_id = none := by
    have hnil : db.filter (fun x => x.parent_id.isSome) = [] :=
      List.length_eq_zero.mp (by simpa [countParentNotNull] using hguard)
    have hall := List.filter_eq_nil_iff.mp hnil r hr
    exact Option.not_isSome_iff_eq_none.mp (by simpa using hall)
  simp only [manual_attachment_conversion, hguard, Nat.lt_irrefl, if_false]
  rw [applyBatches_eq_map]
  have hFr : (batchRanges (countQualifying db)).foldl
      (fun x pr => batchRow tc rootId pr x) r = r :=
    foldl_batchRow_of_out tc rootId r _ hout
  have h1 : r ∈ db.map (fun x => (batchRanges (countQualifying db)).foldl
      (fun y pr => batchRow tc rootId pr y) x) := by
    have hmm := List.mem_map_of_mem
      (f := fun x => (batchRanges (countQualifying db)).foldl
        (fun y pr => batchRow tc rootId pr y) x) hr
    simpa [hFr] using hmm
  have h2 : ({ r with parent_id := some rootId } : AttRow α)
      ∈ applyCatchAll rootId
        (db.map fun x => (batchRanges (countQualifying db)).foldl
          (fun y pr => batchRow tc rootId pr y) x) := by
    unfold applyCatchAll
    have hmm := List.mem_map_of_mem
      (f := fun x => if x.parent_id.isNone
        then { x with parent_id := some rootId } else x) h1
    simpa [hrnone] using hmm
  unfold applyFileSizeBackfill
  refine ⟨_, List.mem_map_of_mem
    (f := fun x => if x.file_size == 0 && x.db_datas.isSome
      then { x with file_size := (x.db_datas.map plen).getD 0 } else x) h2, ?_⟩
  by_cases hc : (({ r with parent_id := some rootId } : AttRow α).file_size == 0
      && ({ r with parent_id := some rootId } : AttRow α).db_datas.isSome) = true
  · simp [hc]
  · simp [hc]

/-- C10 (witness): one qualifying row with identity 1001 and counted total
1 (sole issued range [1, 1000]): it ends with the root parent reference and
its payload intact. -/
theorem manual_conversion_outside_ranges_witness :
    ∃ f ∈ (manual_attachment_conversion Nat.succ (fun _ => 5) 7
      [(⟨1001, none, some 0, 1⟩ : AttRow Nat)]).1,
      f.id = 1001 ∧ f.parent_id = some 7 ∧ f.db_datas = some 0 :=
  manual_conversion_outside_ranges Nat.succ (fun _ => 5) 7
    [⟨1001, none, some 0, 1⟩] ⟨1001, none, some 0, 1⟩ rfl (by simp)
    (by decide)

end Db2fs
